import Mathlib

/-!
# PoetryCamera device-connectivity core: shallow embedding and verification

This file embeds the WiFi-configuration / reboot glue of the PoetryCamera
repository in Lean 4 and proves (or refutes) the specification's claims
about it.

Embedded sources:
* the Flask network-setup app (`scan_wifi`, `index`, `configure_wifi`,
  `reboot_system`);
* `network-setup/write_wifi_config.sh` (profile write + `nmcli connection up`);
* `network-setup/scripts/reset_ap_mode.sh` (mode switch to AP);
* the dashboard's `displaySavedNetworks` renderer (wifi.js).

Strings are modelled by Lean `String` viewed as its list of characters; the
filesystem directory `/etc/NetworkManager/system-connections` is modelled as
an association list from path to file content.
-/

namespace PoetryCamera

/-! ## Filesystem / credential store model -/

/-- The profile directory, as a finite map from absolute path to file
content, represented by an association list. -/
abbrev Fs := List (String × String)

/-- Writing a file at `path` (what `tee $config_path` does on completion):
any existing entry for `path` is replaced, otherwise the file is created. -/
def writeFile (fs : Fs) (path content : String) : Fs :=
  fs.filter (fun e => e.1 ≠ path) ++ [(path, content)]

/-- Reading the file stored at `path`, if any. -/
def fsLookup (fs : Fs) (path : String) : Option String :=
  (fs.find? (fun e => e.1 == path)).map Prod.snd

/-- The paths present in the store. -/
def fsKeys (fs : Fs) : List String := fs.map Prod.fst

/-- Number of entries stored under `path` (a well-formed directory has at
most one). -/
def fsCount (fs : Fs) (path : String) : Nat :=
  fs.countP (fun e => e.1 == path)

/-! ## The network-setup Flask app (`configure_wifi` pipeline) -/

/-- `connection_name = ssid.replace(' ', '_')`: every space character of the
SSID is replaced by an underscore. -/
def connectionName (ssid : String) : String :=
  String.mk (ssid.data.map (fun c => if c = ' ' then '_' else c))

/-- `config_path="/etc/NetworkManager/system-connections/${connection_name}.nmconnection"`. -/
def profilePath (connName : String) : String :=
  "/etc/NetworkManager/system-connections/" ++ connName ++ ".nmconnection"

/-- The NetworkManager keyfile built by `configure_wifi`'s f-string
(indentation and blank lines as in the source; `uuid` is the fresh
`uuid.uuid4()` value). -/
def wifiConfig (ssid password uuid : String) : String :=
  "\n    [connection]\n    id=" ++ connectionName ssid ++
  "\n    uuid=" ++ uuid ++
  "\n    type=wifi\n    autoconnect=true\n\n    [wifi]\n    mode=infrastructure\n    ssid=" ++ ssid ++
  "\n\n    [wifi-security]\n    auth-alg=open\n    key-mgmt=wpa-psk\n    psk=" ++ password ++
  "\n\n    [ipv4]\n    method=auto\n\n    [ipv6]\n    addr-gen-mode=stable-privacy\n    method=auto\n    "

/-- Errors the network backend (`nmcli connection up`) can surface. -/
inductive BackendError
  | authRejected
  | timeout
  | scanFailed
  | unsupported
deriving DecidableEq, Repr

/-- `write_wifi_config.sh name config`: writes the keyfile to
`profilePath name`, sets permissions, reloads, then runs
`nmcli connection up $connection_name`; the script's exit status is the exit
status of that last command (`up` abstracts the backend activation).
Returns the new directory state and whether the script exited 0. -/
def writeWifiConfigSh (fs : Fs) (name config : String)
    (up : String → Except BackendError Unit) : Fs × Bool :=
  let fs2 := writeFile fs (profilePath name) config
  (fs2, match up name with | Except.ok _ => true | Except.error _ => false)

/-- `configure_wifi(ssid, password)`: derives the connection name, builds
the keyfile and invokes `write_wifi_config.sh`; returns `True` iff the
script exited 0. -/
def configure_wifi (fs : Fs) (ssid password uuid : String)
    (up : String → Except BackendError Unit) : Fs × Bool :=
  writeWifiConfigSh fs (connectionName ssid) (wifiConfig ssid password uuid) up

/-! ## Event traces of the network-setup app

To settle ordering claims (response vs. reboot, teardown vs. startup,
no-op reconnects) the handlers are also embedded as the sequence of
observable effects they perform, in source order. -/

/-- Observable effects of the network-setup Flask app. -/
inductive Event
  /-- `scan_wifi()` runs `sudo iwlist wlan0 scan`. -/
  | scanCmd
  /-- `write_wifi_config.sh` writes the keyfile at `path` via `tee`. -/
  | writeProfile (path content : String)
  /-- `sudo nmcli connection reload`. -/
  | reloadConns
  /-- `sudo nmcli connection up $connection_name` (backend activation). -/
  | activate (name : String)
  /-- `flash(...)` queues a message for the response. -/
  | flashMsg (s : String)
  /-- `sudo reboot` is invoked (`reboot_system`). -/
  | rebootCmd
  /-- The handler returns: the HTTP response (the redirect) is sent. -/
  | respond
deriving DecidableEq, Repr

/-- Effects of `write_wifi_config.sh name config`, in script order:
write the keyfile, reload, activate. (`chmod` has no observable effect in
this model.) -/
def writeWifiConfigShEvents (name config : String) : List Event :=
  [Event.writeProfile (profilePath name) config, Event.reloadConns,
   Event.activate name]

/-- Effects of `configure_wifi(ssid, password)`. -/
def configureWifiEvents (ssid password uuid : String) : List Event :=
  writeWifiConfigShEvents (connectionName ssid) (wifiConfig ssid password uuid)

/-- Effects of a POST to `index`: scan first (`networks = scan_wifi()`),
then `configure_wifi`; on success `flash(...)` then `reboot_system()` and
only then `return redirect(url_for('index'))`; on failure the error is
flashed and the redirect returned. `up` is the outcome of
`nmcli connection up` for a given connection name. -/
def indexPostTrace (ssid password uuid : String)
    (up : String → Except BackendError Unit) : List Event :=
  Event.scanCmd :: configureWifiEvents ssid password uuid ++
    (match up (connectionName ssid) with
     | Except.ok _ =>
        [Event.flashMsg "Configuration saved successfully! The device will now reboot.",
         Event.rebootCmd, Event.respond]
     | Except.error _ =>
        [Event.flashMsg "Failed to save configuration. Please try again.",
         Event.respond])

/-- Position of the first occurrence of `e` in a trace (length of the trace
when absent). -/
def evIndex (e : Event) : List Event → Nat
  | [] => 0
  | x :: xs => if x = e then 0 else evIndex e xs + 1

/-- Device state as seen by the network-setup app: the profile directory
plus the backend's currently active connection (which the app never
consults). -/
structure DeviceState where
  fs : Fs
  activeConn : Option String
deriving Repr

/-- A connect request handled by `configure_wifi`: the source computes the
connection name and runs `write_wifi_config.sh` unconditionally — it takes
only `(ssid, password)` and never reads the currently active connection.
Returns the new state, the success flag, and the effect trace. -/
def connectRequest (st : DeviceState) (ssid password uuid : String)
    (up : String → Except BackendError Unit) :
    DeviceState × Bool × List Event :=
  let r := configure_wifi st.fs ssid password uuid up
  ({ st with fs := r.1 }, r.2, configureWifiEvents ssid password uuid)

/-! ## Basic store lemmas -/

theorem fsLookup_writeFile_self (fs : Fs) (path content : String) :
    fsLookup (writeFile fs path content) path = some content := by
  unfold fsLookup writeFile
  rw [List.find?_append]
  have hl : List.find? (fun e : String × String => e.1 == path)
      (fs.filter (fun e => e.1 ≠ path)) = none := by
    rw [List.find?_eq_none]
    intro x hx
    have := (List.mem_filter.mp hx).2
    simpa using this
  rw [hl]
  simp [List.find?]

theorem fsLookup_writeFile_other (fs : Fs) (path content q : String)
    (hq : q ≠ path) :
    fsLookup (writeFile fs path content) q = fsLookup fs q := by
  unfold fsLookup writeFile
  rw [List.find?_append]
  have hpq : (path == q) = false := beq_eq_false_iff_ne.mpr (Ne.symm hq)
  have hr : List.find? (fun e : String × String => e.1 == q) [(path, content)] = none := by
    simp [List.find?, hpq]
  have hl : List.find? (fun e : String × String => e.1 == q)
      (fs.filter (fun e => e.1 ≠ path)) =
      List.find? (fun e : String × String => e.1 == q) fs := by
    rw [List.find?_filter]
    congr 1
    funext e
    by_cases he : e.1 = q
    · have hep : e.1 ≠ path := by rw [he]; exact hq
      simp [he, hep, hq]
    · simp [he]
  rw [hr, hl, Option.or_none]

theorem fsCount_writeFile_self (fs : Fs) (path content : String) :
    fsCount (writeFile fs path content) path = 1 := by
  unfold fsCount writeFile
  rw [List.countP_append, List.countP_filter]
  have h1 : List.countP
      (fun a : String × String => (a.1 == path) && decide (a.1 ≠ path)) fs = 0 := by
    rw [List.countP_eq_zero]
    intro a _
    simp
  rw [h1]
  simp

theorem fsKeys_writeFile_nodup (fs : Fs) (path content : String)
    (h : (fsKeys fs).Nodup) :
    (fsKeys (writeFile fs path content)).Nodup := by
  unfold fsKeys writeFile
  rw [List.map_append]
  apply List.Nodup.append
  · exact List.Nodup.sublist ((List.filter_sublist fs).map Prod.fst) h
  · simp
  · intro a ha hb
    simp only [List.map_cons, List.map_nil, List.mem_singleton] at hb
    subst hb
    rcases List.mem_map.mp ha with ⟨e, he, hkey⟩
    have h2 := (List.mem_filter.mp he).2
    simp only [ne_eq, decide_not, Bool.not_eq_true', decide_eq_false_iff_not] at h2
    exact h2 hkey

/-! ## `scan_wifi` -/

/-- Does the character list start with the given pattern? -/
def hasPrefixChars : List Char → List Char → Bool
  | [], _ => true
  | _ :: _, [] => false
  | p :: ps, c :: cs => p = c && hasPrefixChars ps cs

/-- Python `pat in line` on character lists: the pattern occurs as a
contiguous run somewhere in the list. -/
def containsChars (pat : List Char) : List Char → Bool
  | [] => hasPrefixChars pat []
  | c :: cs => hasPrefixChars pat (c :: cs) || containsChars pat cs

/-- Python `s.split(sep)` for a one-character separator: the (always
nonempty) list of runs between occurrences of `sep`. -/
def splitOnChar (sep : Char) : List Char → List (List Char)
  | [] => [[]]
  | c :: cs =>
      let r := splitOnChar sep cs
      if c = sep then [] :: r
      else
        match r with
        | [] => [[c]]
        | h :: t => (c :: h) :: t

/-- Python `s.strip('"')`: remove all leading and trailing `"` characters. -/
def stripQuoteChars (s : List Char) : List Char :=
  ((s.dropWhile (fun c => c = '"')).reverse.dropWhile (fun c => c = '"')).reverse

/-- The `for line in result.stdout.split('\n')` loop of `scan_wifi`,
carrying the `networks` accumulator. A line containing `"ESSID"` is split
on `':'`; taking index `[1]` of a split with a single part raises
`IndexError`, which the surrounding `except` catches — `scan_wifi` then
returns the networks accumulated so far, which that branch models by
stopping with `acc`. An ESSID already in `networks` is skipped. -/
def scanLines (acc : List String) : List (List Char) → List String
  | [] => acc
  | line :: rest =>
      if containsChars "ESSID".data line then
        match splitOnChar ':' line with
        | _ :: second :: _ =>
            let essid := String.mk (stripQuoteChars second)
            if essid ∈ acc then scanLines acc rest
            else scanLines (acc ++ [essid]) rest
        | _ => acc
      else scanLines acc rest

/-- `scan_wifi()`: `none` models the subprocess call itself raising (the
`except` then returns the still-empty `networks`); `some stdout` models a
completed `iwlist` run whose output is parsed line by line
(`result.stdout.split('\n')`). -/
def scan_wifi (subprocessOut : Option String) : List String :=
  match subprocessOut with
  | none => []
  | some stdout => scanLines [] (splitOnChar '\n' stdout.data)

/-! ## `reset_ap_mode.sh` (mode switch to Access Point) -/

/-- The services the script manages. -/
inductive Svc
  | dhcpcd
  | wpaSupplicant
  | hostapd
  | dnsmasq
deriving DecidableEq, Repr

/-- A `systemctl stop`/`start` invocation. -/
inductive SvcAct
  | stopSvc (s : Svc)
  | startSvc (s : Svc)
deriving DecidableEq, Repr

/-- `reset_ap_mode.sh`, in script order: stop the station-side services,
then start the access-point services. -/
def resetApModeSh : List SvcAct :=
  [SvcAct.stopSvc Svc.dhcpcd, SvcAct.stopSvc Svc.wpaSupplicant,
   SvcAct.startSvc Svc.hostapd, SvcAct.startSvc Svc.dnsmasq]

/-- Services belonging to Station mode. -/
def stationSvcs : List Svc := [Svc.dhcpcd, Svc.wpaSupplicant]

/-- Services belonging to Access-Point mode. -/
def apSvcs : List Svc := [Svc.hostapd, Svc.dnsmasq]

/-- Effect of one `systemctl` invocation on the set of running services. -/
def applyAct (running : List Svc) : SvcAct → List Svc
  | SvcAct.stopSvc s => running.filter (fun t => t ≠ s)
  | SvcAct.startSvc s => if s ∈ running then running else s :: running

/-- Running the whole script from a given set of running services. -/
def runActs (running : List Svc) (acts : List SvcAct) : List Svc :=
  acts.foldl applyAct running

/-- Every instantaneous state along a script run, the initial state
included. -/
def statesAlong (running : List Svc) : List SvcAct → List (List Svc)
  | [] => [running]
  | a :: as => running :: statesAlong (applyAct running a) as

/-- Station mode is operating when any of its services runs. -/
def stationActive (running : List Svc) : Bool :=
  stationSvcs.any (fun s => s ∈ running)

/-- Access-Point mode is operating when any of its services runs. -/
def apActive (running : List Svc) : Bool :=
  apSvcs.any (fun s => s ∈ running)

/-- The state the script is meant for: station services up, AP down. -/
def stationRunning : List Svc := [Svc.dhcpcd, Svc.wpaSupplicant]

/-- No stop of a station service may occur at or after a start of an
AP service: checks that, after each `startSvc` of an AP service, the rest
of the script stops no station service. -/
def stopsPrecedeStarts : List SvcAct → Bool
  | [] => true
  | SvcAct.startSvc s :: rest =>
      if s ∈ apSvcs then
        (rest.all (fun a =>
          match a with
          | SvcAct.stopSvc t => ¬ t ∈ stationSvcs
          | _ => true)) && stopsPrecedeStarts rest
      else stopsPrecedeStarts rest
  | _ :: rest => stopsPrecedeStarts rest

/-! ## Interrupted `tee` writes (crash model for `write_wifi_config.sh`)

`echo "$config" | sudo tee $config_path` opens the destination itself with
truncation and streams the new content into it: the state observable after
an interruption `k` characters in is the destination holding the first `k`
characters of the new content. There is no temporary file and no rename in
the script. -/

/-- The profile directory observed when the `tee` write of `content` to
`path` is interrupted after `k` characters. -/
def teeInterrupted (fs : Fs) (path content : String) (k : Nat) : Fs :=
  writeFile fs path (content.take k)

/-! ## Saved-networks rendering (wifi.js `displaySavedNetworks`) -/

/-- A stored network profile (spec §3): the credential store holds the
secret alongside name, ssid and the auto-connect flag. -/
structure NetworkProfile where
  name : String
  ssid : String
  secret : String
  autoconnect : Bool
deriving DecidableEq, Repr

/-- One entry of the `List saved` API response: `{name, autoconnect}`. -/
structure SavedNetworkView where
  name : String
  autoconnect : Bool
deriving DecidableEq, Repr

/-- Modelled from the spec: the saved-networks API handler
(`/api/wifi/networks`) is not among the sources; §4.1 specifies
`list() -> [NetworkProfile]` with secrets redacted and §6 specifies the
response entries as `{name, autoconnect}` — the listed fields are exactly
the profile name and auto-connect flag. -/
def listSaved (store : List NetworkProfile) : List SavedNetworkView :=
  store.map (fun p => { name := p.name, autoconnect := p.autoconnect })

/-- `escapeHtml` (main.js): assigning `textContent` and reading back
`innerHTML` escapes the HTML-significant characters `&`, `<`, `>`. -/
def escapeHtml (s : String) : String :=
  String.join (s.data.map (fun c =>
    if c = '&' then "&amp;"
    else if c = '<' then "&lt;"
    else if c = '>' then "&gt;"
    else String.mk [c]))

/-- One row of the saved-networks table (the template literal of
`displaySavedNetworks`): star icon, escaped name, an `Auto` tag when
auto-connect is set, and a forget button whose handler receives the
escaped name. -/
def savedNetworkRow (n : SavedNetworkView) : String :=
  "<tr><td><span class=\"icon\"><i class=\"fas fa-star has-text-warning\"></i></span> " ++
  escapeHtml n.name ++
  (if n.autoconnect then " <span class=\"tag is-small is-light ml-2\">Auto</span>" else "") ++
  "</td><td style=\"width: 80px;\"><button class=\"button is-small is-danger is-outlined\" onclick=\"showForgetModal('" ++
  escapeHtml n.name ++
  "')\"><span class=\"icon\"><i class=\"fas fa-trash\"></i></span></button></td></tr>"

/-- `displaySavedNetworks(networks)`: a placeholder row when the list is
empty, otherwise the concatenation (`join('')`) of the rendered rows. -/
def displaySavedNetworks (networks : List SavedNetworkView) : String :=
  if networks.length = 0 then
    "<tr><td class=\"has-text-centered has-text-grey\">No saved networks</td></tr>"
  else
    String.join (networks.map savedNetworkRow)

/-! ## Update orchestrator (spec-modelled) -/

/-- Update state (spec §3 `UpdateState`). -/
structure UpdateState where
  lastCheckedAt : Option Nat
  commitsBehind : Nat
  pendingCommitSummaries : List String
  applyInProgress : Bool
deriving DecidableEq, Repr

/-- Update errors (spec §7). -/
inductive UpdateError
  | unreachable
  | alreadyInProgress
  | applyFailed
deriving DecidableEq, Repr

/-- Outcome of contacting the remote revision source. -/
inductive RemoteOutcome
  /-- The remote answered: commits behind, their summaries, check time. -/
  | reachable (behind : Nat) (commits : List String) (now : Nat)
  /-- Network failure while contacting the remote. -/
  | netFailure
deriving DecidableEq, Repr

/-- Modelled from the spec: the `/api/check_updates` backend handler is not
among the sources; §4.4 — `checkForUpdates()` compares the local revision
to the remote; on network failure it returns `UpdateError::Unreachable`,
leaving the prior `UpdateState` untouched. Returns the call's result
together with the `UpdateState` stored after the call. -/
def checkForUpdates (st : UpdateState) (remote : RemoteOutcome) :
    Except UpdateError UpdateState × UpdateState :=
  match remote with
  | RemoteOutcome.netFailure => (Except.error UpdateError.unreachable, st)
  | RemoteOutcome.reachable behind commits now =>
      let st2 : UpdateState :=
        { st with lastCheckedAt := some now, commitsBehind := behind,
                  pendingCommitSummaries := commits }
      (Except.ok st2, st2)

/-! ## Helper lemmas -/

/-- `configure_wifi` always leaves the directory with the keyfile written
at the profile path, whatever the activation outcome. -/
theorem configure_wifi_fst (fs : Fs) (ssid password uuid : String)
    (up : String → Except BackendError Unit) :
    (configure_wifi fs ssid password uuid up).1 =
      writeFile fs (profilePath (connectionName ssid))
        (wifiConfig ssid password uuid) := rfl

/-- The `scan_wifi` loop never duplicates an accumulated ESSID. -/
theorem scanLines_nodup (ls : List (List Char)) (acc : List String)
    (h : acc.Nodup) : (scanLines acc ls).Nodup := by
  induction ls generalizing acc with
  | nil => simpa [scanLines] using h
  | cons line rest ih =>
      rw [scanLines]
      by_cases hm : containsChars "ESSID".data line
      · simp only [hm, if_true]
        match hsplit : splitOnChar ':' line with
        | [] => exact h
        | [_] => exact h
        | _ :: second :: _ =>
            by_cases hin : String.mk (stripQuoteChars second) ∈ acc
            · simp only [hin, if_true]
              exact ih acc h
            · simp only [hin, if_false]
              apply ih
              apply List.Nodup.append h (List.nodup_singleton _)
              intro a ha hb
              simp only [List.mem_singleton] at hb
              subst hb
              exact hin ha
      · simp only [hm, if_false]
        exact ih acc h

/-- Two characters that are equal, or both a space-or-underscore. -/
def spaceUnderscoreEq (a b : Char) : Prop :=
  a = b ∨ (a ∈ [' ', '_'] ∧ b ∈ [' ', '_'])

instance (a b : Char) : Decidable (spaceUnderscoreEq a b) := by
  unfold spaceUnderscoreEq; infer_instance

/-- Two SSIDs differ only in spaces versus underscores: they have the same
length and agree character by character up to swapping space and
underscore. -/
def differOnlyInSpaces (s t : String) : Prop :=
  List.Forall₂ spaceUnderscoreEq s.data t.data

instance (s t : String) : Decidable (differOnlyInSpaces s t) := by
  unfold differOnlyInSpaces; infer_instance

/-- Space-for-underscore substitution identifies SSIDs that differ only in
spaces versus underscores. -/
theorem connectionName_eq_of_differOnlyInSpaces (s t : String)
    (h : differOnlyInSpaces s t) : connectionName s = connectionName t := by
  unfold connectionName
  have gen : ∀ l1 l2 : List Char, List.Forall₂ spaceUnderscoreEq l1 l2 →
      l1.map (fun c => if c = ' ' then '_' else c) =
        l2.map (fun c => if c = ' ' then '_' else c) := by
    intro l1 l2 hf
    induction hf with
    | nil => rfl
    | cons ha _ ih =>
        simp only [List.map_cons, ih, List.cons.injEq, and_true]
        rcases ha with rfl | ⟨ha1, hb1⟩
        · rfl
        · rcases List.mem_pair.mp ha1 with rfl | rfl <;>
            rcases List.mem_pair.mp hb1 with rfl | rfl <;> rfl
  rw [gen s.data t.data h]

/-! ## Claims -/

/-- C1, as stated — refuted. In a successful reboot-triggering POST to
`index`, `reboot_system()` runs `sudo reboot` *before* the handler returns
the redirect response: at this concrete successful request the
response-send event does not precede the OS restart invocation. -/
theorem reboot_after_response_cex :
    Event.rebootCmd ∈ indexPostTrace "HomeNet" "pw" "uuid-1" (fun _ => Except.ok ()) ∧
    Event.respond ∈ indexPostTrace "HomeNet" "pw" "uuid-1" (fun _ => Except.ok ()) ∧
    ¬ evIndex Event.respond (indexPostTrace "HomeNet" "pw" "uuid-1" (fun _ => Except.ok ())) <
        evIndex Event.rebootCmd (indexPostTrace "HomeNet" "pw" "uuid-1" (fun _ => Except.ok ())) := by
  refine ⟨?_, ?_, ?_⟩ <;>
    simp [indexPostTrace, configureWifiEvents, writeWifiConfigShEvents, evIndex]

/-- C1 (amended): for every reboot request that succeeds, the handler
invokes the OS restart command strictly before the HTTP response is
returned — the caller's confirmation is sent only after `sudo reboot` has
been issued, not before. -/
theorem reboot_invoked_before_response (ssid password uuid : String)
    (up : String → Except BackendError Unit)
    (h : up (connectionName ssid) = Except.ok ()) :
    Event.rebootCmd ∈ indexPostTrace ssid password uuid up ∧
    Event.respond ∈ indexPostTrace ssid password uuid up ∧
    evIndex Event.rebootCmd (indexPostTrace ssid password uuid up) <
      evIndex Event.respond (indexPostTrace ssid password uuid up) := by
  refine ⟨?_, ?_, ?_⟩ <;>
    simp [indexPostTrace, configureWifiEvents, writeWifiConfigShEvents, h, evIndex]

/-- Witness for C1 (amended) at a concrete successful request. -/
theorem reboot_invoked_before_response_witness :
    (fun _ : String => Except.ok (ε := BackendError) ()) (connectionName "HomeNet") = Except.ok () ∧
    (Event.rebootCmd ∈ indexPostTrace "HomeNet" "pw" "uuid-1" (fun _ => Except.ok ()) ∧
     Event.respond ∈ indexPostTrace "HomeNet" "pw" "uuid-1" (fun _ => Except.ok ()) ∧
     evIndex Event.rebootCmd (indexPostTrace "HomeNet" "pw" "uuid-1" (fun _ => Except.ok ())) <
       evIndex Event.respond (indexPostTrace "HomeNet" "pw" "uuid-1" (fun _ => Except.ok ()))) :=
  ⟨rfl, reboot_invoked_before_response "HomeNet" "pw" "uuid-1" (fun _ => Except.ok ()) rfl⟩

/-- C2, as stated — refuted. A `connect` whose activation fails with
`AuthRejected` reports failure, yet the credential store is not the store
before the call: starting from an empty directory, the profile keyfile has
been written. -/
theorem connect_atomic_on_failure_cex :
    (configure_wifi [] "HomeNet" "wrongpw" "uuid-1"
      (fun _ => Except.error BackendError.authRejected)).2 = false ∧
    (configure_wifi [] "HomeNet" "wrongpw" "uuid-1"
      (fun _ => Except.error BackendError.authRejected)).1 ≠ ([] : Fs) := by
  constructor
  · rfl
  · simp [configure_wifi, writeWifiConfigSh, writeFile]

/-- C2 (amended): on `AuthRejected` or `Timeout` the call reports failure
and triggers no reboot, but the store *is* mutated — `write_wifi_config.sh`
writes the keyfile before attempting activation, so the failed call leaves
exactly the profile write behind. -/
theorem connect_failure_writes_profile (fs : Fs) (ssid password uuid : String)
    (up : String → Except BackendError Unit) (e : BackendError)
    (h : up (connectionName ssid) = Except.error e) :
    configure_wifi fs ssid password uuid up =
      (writeFile fs (profilePath (connectionName ssid))
        (wifiConfig ssid password uuid), false) := by
  simp [configure_wifi, writeWifiConfigSh, h]

/-- Witness for C2 (amended) at a concrete rejected connect. -/
theorem connect_failure_writes_profile_witness :
    (fun _ : String => Except.error (α := Unit) BackendError.authRejected)
        (connectionName "HomeNet") = Except.error BackendError.authRejected ∧
    configure_wifi [] "HomeNet" "wrongpw" "uuid-1"
        (fun _ => Except.error BackendError.authRejected) =
      (writeFile [] (profilePath (connectionName "HomeNet"))
        (wifiConfig "HomeNet" "wrongpw" "uuid-1"), false) :=
  ⟨rfl, connect_failure_writes_profile [] "HomeNet" "wrongpw" "uuid-1"
    (fun _ => Except.error BackendError.authRejected) BackendError.authRejected rfl⟩

/-- C3, as stated — refuted on the "exactly one mode active at every
instant" conjunct. Running `reset_ap_mode.sh` from a station-mode state,
the instant after `systemctl stop wpa_supplicant` and before
`systemctl start hostapd` has no station service and no AP service
running: neither mode is active at that instant. -/
theorem one_mode_active_every_instant_cex :
    runActs stationRunning (resetApModeSh.take 2) ∈
        statesAlong stationRunning resetApModeSh ∧
    stationActive (runActs stationRunning (resetApModeSh.take 2)) = false ∧
    apActive (runActs stationRunning (resetApModeSh.take 2)) = false := by
  decide

/-- C3 (amended): station and access-point operation never overlap — along
the whole run of `reset_ap_mode.sh` from a station-mode state no instant
has both a station service and an AP service running, every stop of a
station service precedes every start of an AP service, and the script
ends with AP services up and station services down; but there is a
transient window in which neither mode is active. -/
theorem mode_switch_never_overlaps :
    ((statesAlong stationRunning resetApModeSh).all
      (fun st => !(stationActive st && apActive st))) = true ∧
    stopsPrecedeStarts resetApModeSh = true ∧
    stationActive (runActs stationRunning resetApModeSh) = false ∧
    apActive (runActs stationRunning resetApModeSh) = true := by
  decide

/-- C4: profile persistence is idempotent by name — a second
connect-or-save request with the same SSID overwrites the single stored
keyfile (the second request's secret wins), the store holds exactly one
entry under that profile path, and names stay duplicate-free. -/
theorem upsert_idempotent_by_name (fs : Fs) (ssid pw1 pw2 u1 u2 : String)
    (up : String → Except BackendError Unit)
    (h : (fsKeys fs).Nodup) :
    fsLookup (configure_wifi (configure_wifi fs ssid pw1 u1 up).1 ssid pw2 u2 up).1
        (profilePath (connectionName ssid)) = some (wifiConfig ssid pw2 u2) ∧
    fsCount (configure_wifi (configure_wifi fs ssid pw1 u1 up).1 ssid pw2 u2 up).1
        (profilePath (connectionName ssid)) = 1 ∧
    (fsKeys (configure_wifi (configure_wifi fs ssid pw1 u1 up).1 ssid pw2 u2 up).1).Nodup := by
  rw [configure_wifi_fst, configure_wifi_fst]
  refine ⟨fsLookup_writeFile_self _ _ _, fsCount_writeFile_self _ _ _, ?_⟩
  exact fsKeys_writeFile_nodup _ _ _ (fsKeys_writeFile_nodup _ _ _ h)

/-- Witness for C4 at a concrete repeated connect from an empty store. -/
theorem upsert_idempotent_by_name_witness :
    (fsKeys ([] : Fs)).Nodup ∧
    (fsLookup (configure_wifi (configure_wifi [] "HomeNet" "pw1" "u1"
          (fun _ => Except.ok ())).1 "HomeNet" "pw2" "u2" (fun _ => Except.ok ())).1
        (profilePath (connectionName "HomeNet")) =
          some (wifiConfig "HomeNet" "pw2" "u2") ∧
     fsCount (configure_wifi (configure_wifi [] "HomeNet" "pw1" "u1"
          (fun _ => Except.ok ())).1 "HomeNet" "pw2" "u2" (fun _ => Except.ok ())).1
        (profilePath (connectionName "HomeNet")) = 1 ∧
     (fsKeys (configure_wifi (configure_wifi [] "HomeNet" "pw1" "u1"
          (fun _ => Except.ok ())).1 "HomeNet" "pw2" "u2" (fun _ => Except.ok ())).1).Nodup) :=
  ⟨List.nodup_nil, upsert_idempotent_by_name [] "HomeNet" "pw1" "pw2" "u1" "u2"
    (fun _ => Except.ok ()) List.nodup_nil⟩

/-- C5, as stated — refuted. `write_wifi_config.sh` pipes the keyfile into
`tee $config_path` directly: interrupting the write of `"new-config-longer"`
over `"old-config"` after 3 characters leaves the file holding `"new"`,
which is neither the pre-write nor the post-write content — there is no
write-to-temp-then-atomic-rename in the script. -/
theorem upsert_crash_safe_cex :
    fsLookup (teeInterrupted [(profilePath "HomeNet", "old-config")]
        (profilePath "HomeNet") "new-config-longer" 3)
        (profilePath "HomeNet") = some "new" ∧
    ("new" : String) ≠ "old-config" ∧ ("new" : String) ≠ "new-config-longer" := by
  refine ⟨fsLookup_writeFile_self _ _ _, by decide, by decide⟩

/-- C5 (amended): an upsert interrupted after `k` characters leaves the
profile file holding exactly the first `k` characters of the new content —
an arbitrary prefix, torn whenever that prefix is neither the old nor the
full new content. -/
theorem upsert_interrupted_exposes_prefix (fs : Fs) (path content : String)
    (k : Nat) :
    fsLookup (teeInterrupted fs path content k) path = some (content.take k) :=
  fsLookup_writeFile_self fs path (content.take k)

/-- C6, as stated — refuted. With `HomeNet` the active connection and its
profile already stored, a fresh connect for `HomeNet` still emits the
profile write and the `nmcli connection up` activation, and replaces the
stored keyfile (the file content changes with the fresh uuid): it is not a
no-op. -/
theorem connect_already_active_noop_cex :
    Event.activate "HomeNet" ∈
      (connectRequest (DeviceState.mk [(profilePath "HomeNet", "old-keyfile")]
          (some "HomeNet")) "HomeNet" "pw" "uuid-2"
        (fun _ => Except.ok ())).2.2 ∧
    Event.writeProfile (profilePath "HomeNet") (wifiConfig "HomeNet" "pw" "uuid-2") ∈
      (connectRequest (DeviceState.mk [(profilePath "HomeNet", "old-keyfile")]
          (some "HomeNet")) "HomeNet" "pw" "uuid-2"
        (fun _ => Except.ok ())).2.2 ∧
    fsLookup (connectRequest (DeviceState.mk [(profilePath "HomeNet", "old-keyfile")]
          (some "HomeNet")) "HomeNet" "pw" "uuid-2"
        (fun _ => Except.ok ())).1.fs (profilePath "HomeNet") ≠
      some "old-keyfile" := by
  refine ⟨?_, ?_, ?_⟩ <;> · set_option maxRecDepth 8192 in decide

/-- C6 (amended): a connect for the profile that is already the active
connection is not short-circuited — the handler still writes the keyfile
(with a fresh uuid) and re-runs backend activation, and the stored profile
is overwritten with the newly built keyfile. -/
theorem connect_already_active_not_noop (st : DeviceState)
    (ssid password uuid : String) (up : String → Except BackendError Unit)
    (_h : st.activeConn = some (connectionName ssid)) :
    Event.writeProfile (profilePath (connectionName ssid))
        (wifiConfig ssid password uuid) ∈
      (connectRequest st ssid password uuid up).2.2 ∧
    Event.activate (connectionName ssid) ∈
      (connectRequest st ssid password uuid up).2.2 ∧
    fsLookup (connectRequest st ssid password uuid up).1.fs
        (profilePath (connectionName ssid)) =
      some (wifiConfig ssid password uuid) := by
  refine ⟨?_, ?_, ?_⟩
  · simp [connectRequest, configureWifiEvents, writeWifiConfigShEvents]
  · simp [connectRequest, configureWifiEvents, writeWifiConfigShEvents]
  · show fsLookup (configure_wifi st.fs ssid password uuid up).1 _ = _
    rw [configure_wifi_fst]
    exact fsLookup_writeFile_self _ _ _

/-- Witness for C6 (amended) at a concrete already-active connect. -/
theorem connect_already_active_not_noop_witness :
    (DeviceState.mk [(profilePath "HomeNet", "old-keyfile")]
        (some "HomeNet")).activeConn = some (connectionName "HomeNet") ∧
    (Event.writeProfile (profilePath (connectionName "HomeNet"))
        (wifiConfig "HomeNet" "pw" "uuid-2") ∈
      (connectRequest (DeviceState.mk [(profilePath "HomeNet", "old-keyfile")]
          (some "HomeNet")) "HomeNet" "pw" "uuid-2"
        (fun _ => Except.ok ())).2.2 ∧
     Event.activate (connectionName "HomeNet") ∈
      (connectRequest (DeviceState.mk [(profilePath "HomeNet", "old-keyfile")]
          (some "HomeNet")) "HomeNet" "pw" "uuid-2"
        (fun _ => Except.ok ())).2.2 ∧
     fsLookup (connectRequest (DeviceState.mk [(profilePath "HomeNet", "old-keyfile")]
          (some "HomeNet")) "HomeNet" "pw" "uuid-2"
        (fun _ => Except.ok ())).1.fs (profilePath (connectionName "HomeNet")) =
      some (wifiConfig "HomeNet" "pw" "uuid-2")) :=
  ⟨by decide, connect_already_active_not_noop
    (DeviceState.mk [(profilePath "HomeNet", "old-keyfile")] (some "HomeNet"))
    "HomeNet" "pw" "uuid-2" (fun _ => Except.ok ()) (by decide)⟩

/-- C7: secrets are write-only. The saved-networks response exposes
exactly name and auto-connect (by the shape of `SavedNetworkView`), and
neither the response nor the rendered saved-networks table depends on any
stored secret: rewriting every profile's secret arbitrarily leaves both
unchanged. -/
theorem secrets_never_echoed (store : List NetworkProfile)
    (rewriteSecret : NetworkProfile → String) :
    listSaved (store.map (fun p => { p with secret := rewriteSecret p })) =
      listSaved store ∧
    displaySavedNetworks
        (listSaved (store.map (fun p => { p with secret := rewriteSecret p }))) =
      displaySavedNetworks (listSaved store) := by
  have h1 : listSaved (store.map (fun p => { p with secret := rewriteSecret p })) =
      listSaved store := by
    unfold listSaved
    rw [List.map_map]
    rfl
  exact ⟨h1, by rw [h1]⟩

/-- C8: `checkForUpdates` during a network outage returns
`UpdateError::Unreachable` and the stored `UpdateState` after the failed
call is the prior state, every field preserved verbatim. -/
theorem checkForUpdates_unreachable_preserves_state (st : UpdateState) :
    (checkForUpdates st RemoteOutcome.netFailure).1 =
      Except.error UpdateError.unreachable ∧
    (checkForUpdates st RemoteOutcome.netFailure).2 = st ∧
    (checkForUpdates st RemoteOutcome.netFailure).2.lastCheckedAt = st.lastCheckedAt ∧
    (checkForUpdates st RemoteOutcome.netFailure).2.commitsBehind = st.commitsBehind ∧
    (checkForUpdates st RemoteOutcome.netFailure).2.pendingCommitSummaries =
      st.pendingCommitSummaries ∧
    (checkForUpdates st RemoteOutcome.netFailure).2.applyInProgress =
      st.applyInProgress := by
  simp [checkForUpdates]

/-- C9, as stated — refuted on the exception conjunct. On output whose
second line mentions `ESSID` but has no `:`, indexing `split(':')[1]`
raises; `scan_wifi` catches and returns the networks accumulated so far,
`["A"]`, which is not the empty list. -/
theorem scan_exception_returns_empty_cex :
    containsChars "ESSID".data "ESSIDX".data = true ∧
    (splitOnChar ':' "ESSIDX".data).length = 1 ∧
    scan_wifi (some "ESSID:\"A\"\nESSIDX") = ["A"] ∧
    (["A"] : List String) ≠ [] := by
  refine ⟨by decide, by decide, by decide, by decide⟩

/-- C9 (amended): every scan result list is duplicate-free — each ESSID
appears at most once however often the scan reports it — and when the scan
subprocess itself raises, the function returns the empty list; an
exception while parsing yields the ESSIDs accumulated up to that point
rather than raising. -/
theorem scan_results_duplicate_free (subprocessOut : Option String) :
    (scan_wifi subprocessOut).Nodup ∧ scan_wifi none = [] := by
  constructor
  · cases subprocessOut with
    | none => simp [scan_wifi]
    | some stdout => exact scanLines_nodup _ _ List.nodup_nil
  · rfl

/-- C10: the stored profile name replaces every space of the SSID with an
underscore, so two SSIDs that differ only in spaces versus underscores get
the same connection name and profile path, and the later connect request
silently overwrites the earlier profile with its own keyfile. -/
theorem ssid_space_underscore_collision (fs : Fs) (s t pw1 pw2 u1 u2 : String)
    (up : String → Except BackendError Unit)
    (h : differOnlyInSpaces s t) :
    connectionName s = connectionName t ∧
    profilePath (connectionName s) = profilePath (connectionName t) ∧
    fsLookup (configure_wifi (configure_wifi fs s pw1 u1 up).1 t pw2 u2 up).1
        (profilePath (connectionName s)) = some (wifiConfig t pw2 u2) := by
  have hc := connectionName_eq_of_differOnlyInSpaces s t h
  refine ⟨hc, by rw [hc], ?_⟩
  rw [configure_wifi_fst, configure_wifi_fst, hc]
  exact fsLookup_writeFile_self _ _ _

/-- Witness for C10: `"My Net"` and `"My_Net"` collide on the same
profile file and the second connect's keyfile wins. -/
theorem ssid_space_underscore_collision_witness :
    differOnlyInSpaces "My Net" "My_Net" ∧
    (connectionName "My Net" = connectionName "My_Net" ∧
     profilePath (connectionName "My Net") = profilePath (connectionName "My_Net") ∧
     fsLookup (configure_wifi (configure_wifi [] "My Net" "pw1" "u1"
          (fun _ => Except.ok ())).1 "My_Net" "pw2" "u2" (fun _ => Except.ok ())).1
        (profilePath (connectionName "My Net")) =
          some (wifiConfig "My_Net" "pw2" "u2")) :=
  ⟨by decide, ssid_space_underscore_collision [] "My Net" "My_Net" "pw1" "pw2"
    "u1" "u2" (fun _ => Except.ok ()) (by decide)⟩

end PoetryCamera
